import Mathlib

/-!
Verification of the session-key custody core (`SessionManager` in package
`signer`) and its gRPC authorization facade (`Handler`).

Modelling choices (shallow embedding of the Go source):

* Time is modelled as `Int` nanoseconds.  Every public operation takes the
  current time `now` as an explicit argument, standing for the `time.Now()`
  call the Go method performs while holding the lock.
  `time.Now().After(sm.expiresAt)` is the strict comparison
  `sm.expiresAt < now`.
* `*big.Int` fields are `Int`; the nilable pointers `maxValueLimit` (set to
  `nil` by `destroyLocked` and by the zero value of `NewSessionManager`) are
  `Option Int`.
* The memguard enclave is `Option (List Nat)`: `some keyBytes` when a key is
  sealed, `none` otherwise.  `enclave.Open()` is an external call that may
  fail; its outcome is the explicit boolean argument `openOk` of `Sign`.
* All mutation is under `sm.mu`, so each method is a pure function from the
  pre-state (plus its clock reading and environment outcomes) to a result and
  a post-state.  `Status` takes only the read lock and writes nothing, so its
  state component is the identity (`StatusFull`).
-/

namespace Caesar

/-- Core error values (`ErrNoActiveSession`, `ErrSessionExpired`,
`ErrValueLimitExceeded`), plus the error propagated from a failed
`enclave.Open()` (the external signing step), which the facade maps to the
`Internal` category ("signing failed"). -/
inductive SignErr where
  | noActiveSession
  | sessionExpired
  | valueLimitExceeded
  | signingFailure
deriving DecidableEq, Repr

/-- State of a `SessionManager` (the fields guarded by `sm.mu`). -/
structure SessionState where
  enclave : Option (List Nat)
  address : String
  expiresAt : Int
  maxValueLimit : Option Int
  valueUsed : Int
  ttl : Int
deriving DecidableEq, Repr

/-- `NewSessionManager(ttl)`: zero-valued fields, fresh zero `valueUsed`,
no enclave, nil `maxValueLimit`, zero-time `expiresAt`. -/
def initState (ttl : Int) : SessionState :=
  { enclave := none
    address := ""
    expiresAt := 0
    maxValueLimit := none
    valueUsed := 0
    ttl := ttl }

/-- `isExpired`: `time.Now().After(sm.expiresAt)`, i.e. strictly after. -/
def isExpired (st : SessionState) (now : Int) : Bool :=
  decide (st.expiresAt < now)

/-- `destroyLocked`: clears the enclave, address, counters.  Note it does not
touch `expiresAt` or the configured `ttl`. -/
def destroyLocked (st : SessionState) : SessionState :=
  { st with enclave := none, address := "", valueUsed := 0, maxValueLimit := none }

/-- `Destroy`: takes the write lock and runs `destroyLocked`. -/
def Destroy (st : SessionState) : SessionState :=
  destroyLocked st

/-- The placeholder address the source assigns (`TODO: derive address`). -/
def zeroAddress : String := "0x0000000000000000000000000000000000000000"

/-- The state after `Activate(keyBytes, maxValueLimit)` at clock reading
`now`: seals the key, sets `expiresAt := now + ttl`, copies the limit,
resets `valueUsed`, sets the placeholder address.  The prior session fields
are overwritten unconditionally. -/
def activateState (st : SessionState) (keyBytes : List Nat) (maxValueLimit now : Int) :
    SessionState :=
  { st with
    enclave := some keyBytes
    expiresAt := now + st.ttl
    maxValueLimit := some maxValueLimit
    valueUsed := 0
    address := zeroAddress }

/-- `Activate` with its Go return value: the method ends in `return nil`,
so the error component is always `none`. -/
def Activate (st : SessionState) (keyBytes : List Nat) (maxValueLimit now : Int) :
    Option String × SessionState :=
  (none, activateState st keyBytes maxValueLimit now)

/-- The dereference `sm.maxValueLimit` inside `Sign`/`Status`.  In Go this is
a plain pointer read; it is only reached when `sm.enclave != nil`, and every
state with a non-nil enclave also has a non-nil limit (both are set together
by `Activate` and cleared together by `destroyLocked`), so the `getD 0`
default is never consulted on a reachable state. -/
def limitOf (st : SessionState) : Int :=
  st.maxValueLimit.getD 0

/-- The 65-byte placeholder signature `make([]byte, 65)`. -/
def placeholderSig : List Nat := List.replicate 65 0

/-- `Sign(orderValue)`.  Checks, in source order: active session, expiry
(tearing the session down when elapsed), cumulative value limit
(`newTotal.Cmp(sm.maxValueLimit) > 0`), then opens the enclave (`openOk`
is the outcome of `sm.enclave.Open()`), produces the placeholder signature,
and commits `valueUsed := newTotal` only on that success path. -/
def Sign (st : SessionState) (now orderValue : Int) (openOk : Bool) :
    Except SignErr (List Nat) × SessionState :=
  match st.enclave with
  | none => (Except.error SignErr.noActiveSession, st)
  | some _ =>
      if isExpired st now then
        (Except.error SignErr.sessionExpired, destroyLocked st)
      else
        let newTotal := st.valueUsed + orderValue
        if limitOf st < newTotal then
          (Except.error SignErr.valueLimitExceeded, st)
        else if openOk then
          (Except.ok placeholderSig, { st with valueUsed := newTotal })
        else
          (Except.error SignErr.signingFailure, st)

/-- `big.Int.String()` for the decimal rendering `Status` returns. -/
def bigIntStr (n : Int) : String :=
  if n < 0 then "-" ++ Nat.repr n.natAbs else Nat.repr n.natAbs

/-- The five return values of `Status`. -/
structure StatusRep where
  active : Bool
  ttlRemaining : Int
  maxLimit : String
  used : String
  address : String
deriving DecidableEq, Repr

/-- `Status()`: returns the inactive shape when no enclave is present or the
session is expired; otherwise reports the live fields.  `ttlRemaining`
models `int64(time.Until(expiresAt).Seconds())` (nanoseconds divided by 1e9,
clamped at zero). -/
def Status (st : SessionState) (now : Int) : StatusRep :=
  if st.enclave.isNone then
    { active := false, ttlRemaining := 0, maxLimit := "0", used := "0", address := "" }
  else if isExpired st now then
    { active := false, ttlRemaining := 0, maxLimit := "0", used := "0", address := "" }
  else
    let remaining := st.expiresAt - now
    let clamped := if remaining < 0 then 0 else remaining
    { active := true
      ttlRemaining := clamped / 1000000000
      maxLimit := bigIntStr (limitOf st)
      used := bigIntStr st.valueUsed
      address := st.address }

/-- `Status` together with its (unchanged) post-state: the method holds only
the read lock and performs no writes, so the state component is the
identity. -/
def StatusFull (st : SessionState) (now : Int) : StatusRep × SessionState :=
  (Status st now, st)

/-! ## Authorization facade (`Handler.SignOrder`) -/

/-- The gRPC status codes the facade uses. -/
inductive Code where
  | invalidArgument
  | failedPrecondition
  | resourceExhausted
  | internalErr
deriving DecidableEq, Repr

/-- The value of a run of decimal digits, `none` when empty or any character
is not a digit. -/
def decDigitsVal (cs : List Char) : Option Nat :=
  if cs.isEmpty then none
  else if cs.all Char.isDigit then
    some (cs.foldl (fun a c => 10 * a + (c.toNat - 48)) 0)
  else none

/-- `new(big.Int).SetString(s, 10)`: an optional leading sign followed by a
non-empty run of decimal digits, consuming the whole string (base 10 allows
no underscores). -/
def setStringBase10 (s : String) : Option Int :=
  match s.data with
  | '-' :: rest => (decDigitsVal rest).map (fun n => -(n : Int))
  | '+' :: rest => (decDigitsVal rest).map (fun n => (n : Int))
  | cs => (decDigitsVal cs).map (fun n => (n : Int))

/-- The order descriptor field the facade reads. -/
structure Order where
  makerAmount : String
deriving DecidableEq, Repr

/-- `SignOrderRequest`: the `Order` message is a nilable proto field. -/
structure SignOrderRequest where
  order : Option Order
deriving DecidableEq, Repr

/-- `SignOrderResponse`: signature bytes (`string(sig)`) and signer address. -/
structure SignOrderResponse where
  signature : List Nat
  signerAddress : String
deriving DecidableEq, Repr

/-- The `switch err` in `SignOrder`: the gRPC code chosen for each Core
error.  The open-enclave error falls into the `default` branch. -/
def errToCode : SignErr → Code
  | SignErr.noActiveSession => Code.failedPrecondition
  | SignErr.sessionExpired => Code.failedPrecondition
  | SignErr.valueLimitExceeded => Code.resourceExhausted
  | SignErr.signingFailure => Code.internalErr

/-- The message text attached to each error in the `switch err`. -/
def errToMsg : SignErr → String
  | SignErr.noActiveSession => "no active session"
  | SignErr.sessionExpired => "session expired"
  | SignErr.valueLimitExceeded => "cumulative value limit exceeded"
  | SignErr.signingFailure => "signing failed"

/-- `Handler.SignOrder`: rejects a nil order, parses `maker_amount` in base
10, delegates to `SessionManager.Sign`, maps Core errors through the
`switch`, and on success reads the address from `Status` for the
response. -/
def SignOrder (st : SessionState) (now : Int) (req : SignOrderRequest) (openOk : Bool) :
    Except (Code × String) SignOrderResponse × SessionState :=
  match req.order with
  | none => (Except.error (Code.invalidArgument, "order is required"), st)
  | some o =>
      match setStringBase10 o.makerAmount with
      | none => (Except.error (Code.invalidArgument, "invalid maker_amount"), st)
      | some orderValue =>
          match Sign st now orderValue openOk with
          | (Except.error e, st2) => (Except.error (errToCode e, errToMsg e), st2)
          | (Except.ok sig, st2) =>
              (Except.ok { signature := sig, signerAddress := (Status st2 now).address }, st2)

/-! ## Reachability

`Reachable` closes the initial state of `NewSessionManager` under arbitrary
calls of the four public operations, with arbitrary clock readings,
arguments and enclave-open outcomes.  `ReachableV` is the same relation
restricted to `Activate` calls that respect the specified precondition that
`max_value_limit` is non-negative. -/

inductive Reachable : SessionState → Prop where
  | init (ttl : Int) : Reachable (initState ttl)
  | activate (st : SessionState) (key : List Nat) (limit now : Int) :
      Reachable st → Reachable (activateState st key limit now)
  | sign (st : SessionState) (now v : Int) (ok : Bool) :
      Reachable st → Reachable (Sign st now v ok).2
  | status (st : SessionState) (now : Int) :
      Reachable st → Reachable (StatusFull st now).2
  | destroy (st : SessionState) :
      Reachable st → Reachable (Destroy st)

inductive ReachableV : SessionState → Prop where
  | init (ttl : Int) : ReachableV (initState ttl)
  | activate (st : SessionState) (key : List Nat) (limit now : Int) :
      ReachableV st → 0 ≤ limit → ReachableV (activateState st key limit now)
  | sign (st : SessionState) (now v : Int) (ok : Bool) :
      ReachableV st → ReachableV (Sign st now v ok).2
  | status (st : SessionState) (now : Int) :
      ReachableV st → ReachableV (StatusFull st now).2
  | destroy (st : SessionState) :
      ReachableV st → ReachableV (Destroy st)

/-! ## Basic lemmas about the operations -/

/-- The inactive report `Status` returns when no valid session exists. -/
def inactiveRep : StatusRep :=
  { active := false, ttlRemaining := 0, maxLimit := "0", used := "0", address := "" }

theorem sign_noSession (st : SessionState) (now v : Int) (ok : Bool)
    (hk : st.enclave = none) :
    Sign st now v ok = (Except.error SignErr.noActiveSession, st) := by
  unfold Sign
  rw [hk]

theorem sign_expired (st : SessionState) (now v : Int) (ok : Bool) (k : List Nat)
    (hk : st.enclave = some k) (hexp : isExpired st now = true) :
    Sign st now v ok = (Except.error SignErr.sessionExpired, destroyLocked st) := by
  unfold Sign
  rw [hk]
  simp [hexp]

theorem sign_vle (st : SessionState) (now v : Int) (ok : Bool) (k : List Nat)
    (hk : st.enclave = some k) (hexp : isExpired st now = false)
    (hlt : limitOf st < st.valueUsed + v) :
    Sign st now v ok = (Except.error SignErr.valueLimitExceeded, st) := by
  unfold Sign
  rw [hk]
  simp [hexp, hlt]

theorem sign_ok (st : SessionState) (now v : Int) (k : List Nat)
    (hk : st.enclave = some k) (hexp : isExpired st now = false)
    (hle : st.valueUsed + v ≤ limitOf st) :
    Sign st now v true = (Except.ok placeholderSig, { st with valueUsed := st.valueUsed + v }) := by
  unfold Sign
  rw [hk]
  simp [hexp, not_lt.mpr hle]

theorem sign_openFail (st : SessionState) (now v : Int) (k : List Nat)
    (hk : st.enclave = some k) (hexp : isExpired st now = false)
    (hle : st.valueUsed + v ≤ limitOf st) :
    Sign st now v false = (Except.error SignErr.signingFailure, st) := by
  unfold Sign
  rw [hk]
  simp [hexp, not_lt.mpr hle]

/-- Exhaustive case analysis of a `Sign` call: it fails leaving the state
untouched, or fails on expiry tearing the session down, or succeeds within
the limit committing the new total. -/
theorem sign_cases (st : SessionState) (now v : Int) (ok : Bool) :
    (∃ e, Sign st now v ok = (Except.error e, st)) ∨
    Sign st now v ok = (Except.error SignErr.sessionExpired, destroyLocked st) ∨
    (st.valueUsed + v ≤ limitOf st ∧
      Sign st now v ok = (Except.ok placeholderSig, { st with valueUsed := st.valueUsed + v })) := by
  cases hk : st.enclave with
  | none => exact Or.inl ⟨SignErr.noActiveSession, sign_noSession st now v ok hk⟩
  | some k =>
      cases hexp : isExpired st now with
      | true => exact Or.inr (Or.inl (sign_expired st now v ok k hk hexp))
      | false =>
          by_cases hlt : limitOf st < st.valueUsed + v
          · exact Or.inl ⟨SignErr.valueLimitExceeded, sign_vle st now v ok k hk hexp hlt⟩
          · cases ok with
            | true =>
                refine Or.inr (Or.inr ⟨not_lt.mp hlt, ?_⟩)
                rw [sign_ok st now v k hk hexp (not_lt.mp hlt), hk]
            | false =>
                exact Or.inl ⟨SignErr.signingFailure, sign_openFail st now v k hk hexp (not_lt.mp hlt)⟩

theorem status_noSession (st : SessionState) (now : Int) (hk : st.enclave = none) :
    Status st now = inactiveRep := by
  unfold Status
  rw [hk]
  rfl

theorem status_expired (st : SessionState) (now : Int) (k : List Nat)
    (hk : st.enclave = some k) (hexp : isExpired st now = true) :
    Status st now = inactiveRep := by
  unfold Status
  rw [hk]
  simp [hexp, inactiveRep]

theorem status_active (st : SessionState) (now : Int) (k : List Nat)
    (hk : st.enclave = some k) (hexp : isExpired st now = false) :
    (Status st now).active = true ∧ (Status st now).used = bigIntStr st.valueUsed ∧
    (Status st now).maxLimit = bigIntStr (limitOf st) ∧
    (Status st now).address = st.address := by
  unfold Status
  rw [hk]
  simp [hexp]

/-- Spend-accounting invariant, preserved by a single `Sign` call: whenever
the limit pointer is set in the post-state, the committed total is below
it. -/
theorem sign_preserves_le (st : SessionState) (now v : Int) (ok : Bool)
    (ih : ∀ L : Int, st.maxValueLimit = some L → st.valueUsed ≤ L) :
    ∀ L : Int, (Sign st now v ok).2.maxValueLimit = some L →
      (Sign st now v ok).2.valueUsed ≤ L := by
  intro L hL
  rcases sign_cases st now v ok with ⟨e, h⟩ | h | ⟨hle, h⟩
  · rw [h] at hL ⊢
    exact ih L hL
  · rw [h] at hL
    exact Option.noConfusion hL
  · rw [h] at hL ⊢
    have hml : st.maxValueLimit = some L := hL
    have : limitOf st = L := by simp [limitOf, hml]
    show st.valueUsed + v ≤ L
    omega

/-- Under validated activations (`0 ≤ max_value_limit`), every reachable
state keeps `value_used` within the limit. -/
theorem reachableV_le (st : SessionState) (h : ReachableV st) :
    ∀ L : Int, st.maxValueLimit = some L → st.valueUsed ≤ L := by
  induction h with
  | init ttl =>
      intro L hL
      exact Option.noConfusion hL
  | activate st key limit now _ hlim ih =>
      intro L hL
      have hLL : limit = L := Option.some.inj hL
      show (0 : Int) ≤ L
      omega
  | sign st now v ok _ ih =>
      exact sign_preserves_le st now v ok ih
  | status st now _ ih =>
      exact ih
  | destroy st _ ih =>
      intro L hL
      exact Option.noConfusion hL

/-! ## Claims -/

/-- Claim C1, counterexample.  The claim quantifies over every state
reachable by any sequence of the four operations.  `Activate` performs no
validation of `max_value_limit`, so `Activate(key, -1)` yields a reachable,
active, non-expired session with `value_used = 0 > -1 = max_value_limit`,
refuting the stated invariant. -/
theorem C1_counterexample :
    Reachable (activateState (initState 10) [1] (-1) 0) ∧
    (activateState (initState 10) [1] (-1) 0).enclave.isSome = true ∧
    isExpired (activateState (initState 10) [1] (-1) 0) 0 = false ∧
    (activateState (initState 10) [1] (-1) 0).maxValueLimit = some (-1) ∧
    ¬ (activateState (initState 10) [1] (-1) 0).valueUsed ≤ -1 := by
  refine ⟨Reachable.activate (initState 10) [1] (-1) 0 (Reachable.init 10), ?_, ?_, ?_, ?_⟩ <;>
    decide

/-- Claim C1, amended.  Restricted to operation sequences whose `Activate`
calls supply a non-negative `max_value_limit` (the spec's stated
precondition), every reachable state in which a non-expired session is
active satisfies `value_used ≤ max_value_limit`; and unconditionally, `Sign`
never returns success leaving `value_used > max_value_limit`. -/
theorem C1_value_invariant :
    (∀ st : SessionState, ReachableV st → ∀ now L : Int,
        st.enclave.isSome = true → isExpired st now = false →
        st.maxValueLimit = some L → st.valueUsed ≤ L) ∧
    (∀ (st : SessionState) (now v : Int) (ok : Bool) (sig : List Nat) (L : Int),
        (Sign st now v ok).1 = Except.ok sig →
        (Sign st now v ok).2.maxValueLimit = some L →
        (Sign st now v ok).2.valueUsed ≤ L) := by
  constructor
  · intro st h now L _ _ hL
    exact reachableV_le st h L hL
  · intro st now v ok sig L hok hL
    rcases sign_cases st now v ok with ⟨e, h⟩ | h | ⟨hle, h⟩
    · rw [h] at hok
      exact Except.noConfusion hok
    · rw [h] at hok
      exact Except.noConfusion hok
    · rw [h] at hL ⊢
      have hml : st.maxValueLimit = some L := hL
      have : limitOf st = L := by simp [limitOf, hml]
      show st.valueUsed + v ≤ L
      omega

/-- Claim C1, witness: the invariant evaluated on the concrete reachable
state `Activate(key=[1], limit=100)` at time 0. -/
theorem C1_value_invariant_witness :
    (activateState (initState 10) [1] 100 0).valueUsed ≤ 100 :=
  C1_value_invariant.1 (activateState (initState 10) [1] 100 0)
    (ReachableV.activate (initState 10) [1] 100 0 (ReachableV.init 10) (by decide))
    0 100 (by decide) (by decide) rfl

/-- Claim C2: on an active, non-expired session, `Sign` fails with
`ValueLimitExceeded` leaving the whole state unchanged exactly when
`value_used + order_value > max_value_limit`, and succeeds (committing the
new total) when the sum equals the limit exactly. -/
theorem C2_limit_boundary (st : SessionState) (now v L : Int) (k : List Nat) (ok : Bool)
    (hk : st.enclave = some k) (hL : st.maxValueLimit = some L)
    (hexp : isExpired st now = false) :
    (L < st.valueUsed + v →
        Sign st now v ok = (Except.error SignErr.valueLimitExceeded, st)) ∧
    ((Sign st now v ok).1 = Except.error SignErr.valueLimitExceeded →
        L < st.valueUsed + v) ∧
    (st.valueUsed + v = L →
        Sign st now v true =
          (Except.ok placeholderSig, { st with valueUsed := st.valueUsed + v })) := by
  have hlim : limitOf st = L := by simp [limitOf, hL]
  refine ⟨?_, ?_, ?_⟩
  · intro hlt
    exact sign_vle st now v ok k hk hexp (by omega)
  · intro herr
    by_contra hnot
    have hle : st.valueUsed + v ≤ limitOf st := by omega
    cases ok with
    | true =>
        rw [sign_ok st now v k hk hexp hle] at herr
        exact Except.noConfusion herr
    | false =>
        rw [sign_openFail st now v k hk hexp hle] at herr
        have := Except.error.inj herr
        exact SignErr.noConfusion this
  · intro heq
    exact sign_ok st now v k hk hexp (by omega)

/-- Claim C2, witness: limit 100, `Sign(100)` at the exact boundary
succeeds, and the one-unit-over call is characterised by the first
conjunct. -/
theorem C2_limit_boundary_witness :
    Sign (activateState (initState 10) [1] 100 0) 0 100 true =
      (Except.ok placeholderSig,
        { activateState (initState 10) [1] 100 0 with valueUsed := 100 }) := by
  have h := C2_limit_boundary (activateState (initState 10) [1] 100 0) 0 100 100 [1] true
    rfl rfl (by decide)
  exact h.2.2 (by decide)

/-- Claim C3: when the external signing step fails (the enclave fails to
open), `Sign` returns an error and leaves the state — in particular
`value_used` — unchanged; and in general no failing `Sign` call ever
increases `value_used` (it is unchanged, or zeroed by expiry teardown):
the spend commit happens only on the success path. -/
theorem C3_failed_signing_no_commit (st : SessionState) (now v : Int) (k : List Nat)
    (hk : st.enclave = some k) (hexp : isExpired st now = false)
    (hle : st.valueUsed + v ≤ limitOf st) :
    Sign st now v false = (Except.error SignErr.signingFailure, st) ∧
    (∀ (st2 : SessionState) (now2 v2 : Int) (ok2 : Bool) (e : SignErr),
        (Sign st2 now2 v2 ok2).1 = Except.error e →
        (Sign st2 now2 v2 ok2).2.valueUsed = st2.valueUsed ∨
        (Sign st2 now2 v2 ok2).2.valueUsed = 0) := by
  refine ⟨sign_openFail st now v k hk hexp hle, ?_⟩
  intro st2 now2 v2 ok2 e herr
  rcases sign_cases st2 now2 v2 ok2 with ⟨e2, h⟩ | h | ⟨hle2, h⟩
  · rw [h]
    exact Or.inl rfl
  · rw [h]
    exact Or.inr rfl
  · rw [h] at herr
    exact Except.noConfusion herr

/-- Claim C3, witness: a failed enclave open on a fresh session with limit
100 and order value 5 leaves the state unchanged. -/
theorem C3_failed_signing_no_commit_witness :
    Sign (activateState (initState 10) [1] 100 0) 0 5 false =
      (Except.error SignErr.signingFailure, activateState (initState 10) [1] 100 0) :=
  (C3_failed_signing_no_commit (activateState (initState 10) [1] 100 0) 0 5 [1]
    rfl (by decide) (by decide)).1

/-- Claim C4, counterexample.  `big.Int.SetString(s, 10)` accepts a leading
minus sign, so the facade lets the negative order value `"-1"` through to
the Core, whose limit check `value_used - 1 > limit` passes; the commit then
strictly decreases `value_used` (50 to 49) on a successful `SignOrder`,
refuting monotonic non-decrease over every facade-admitted order value. -/
theorem C4_counterexample :
    setStringBase10 "-1" = some (-1) ∧
    (Sign (activateState (initState 10) [1] 100 0) 0 50 true).2.valueUsed = 50 ∧
    (SignOrder (Sign (activateState (initState 10) [1] 100 0) 0 50 true).2 0
        { order := some { makerAmount := "-1" } } true).1 =
      Except.ok { signature := placeholderSig, signerAddress := zeroAddress } ∧
    (SignOrder (Sign (activateState (initState 10) [1] 100 0) 0 50 true).2 0
        { order := some { makerAmount := "-1" } } true).2.valueUsed = 49 := by
  refine ⟨by decide, by decide, rfl, by decide⟩

/-- Claim C4, amended.  For every `Sign` call whose order value is
non-negative (the spec's stated precondition), `value_used` does not
decrease, except that an expiry-triggered teardown resets it to zero along
with the rest of the session; and a non-negative `value_used` stays
non-negative. -/
theorem C4_monotone_nonneg (st : SessionState) (now v : Int) (ok : Bool)
    (hv : 0 ≤ v) :
    (st.valueUsed ≤ (Sign st now v ok).2.valueUsed ∨
      ((Sign st now v ok).2.enclave = none ∧ (Sign st now v ok).2.valueUsed = 0)) ∧
    (0 ≤ st.valueUsed → 0 ≤ (Sign st now v ok).2.valueUsed) := by
  rcases sign_cases st now v ok with ⟨e, h⟩ | h | ⟨hle, h⟩
  · rw [h]
    exact ⟨Or.inl le_rfl, fun h2 => h2⟩
  · rw [h]
    exact ⟨Or.inr ⟨rfl, rfl⟩, fun _ => le_rfl⟩
  · rw [h]
    constructor
    · left
      show st.valueUsed ≤ st.valueUsed + v
      omega
    · intro h2
      show (0 : Int) ≤ st.valueUsed + v
      omega

/-- Claim C4, witness: a successful `Sign(50)` on a fresh limit-100 session
does not decrease `value_used`. -/
theorem C4_monotone_nonneg_witness :
    (activateState (initState 10) [1] 100 0).valueUsed ≤
      (Sign (activateState (initState 10) [1] 100 0) 0 50 true).2.valueUsed ∨
    ((Sign (activateState (initState 10) [1] 100 0) 0 50 true).2.enclave = none ∧
      (Sign (activateState (initState 10) [1] 100 0) 0 50 true).2.valueUsed = 0) :=
  (C4_monotone_nonneg (activateState (initState 10) [1] 100 0) 0 50 true (by decide)).1

/-- Claim C5, counterexample.  On a session whose TTL has elapsed
(`expires_at = 10`, `now = 11`), `Status` reports the inactive shape but —
holding only the read lock and writing nothing — does not tear the session
down: the protected key is still in the enclave afterwards, whereas the
same-time `Sign` call does destroy it.  This refutes "performs the same
expiry handling as `Sign` (lazily tearing down an expired session)". -/
theorem C5_counterexample :
    (StatusFull (activateState (initState 10) [1] 100 0) 11).1 = inactiveRep ∧
    (StatusFull (activateState (initState 10) [1] 100 0) 11).2.enclave = some [1] ∧
    (Sign (activateState (initState 10) [1] 100 0) 11 0 true).2.enclave = none := by
  refine ⟨rfl, rfl, rfl⟩

/-- Claim C5, amended.  When `Status` is called after the session's TTL has
elapsed it reports the inactive shape (`active=false`, zero numeric values,
empty address), but it performs no teardown: the session state, including
the protected key, is left exactly as it was; the expired session is only
destroyed by a later `Sign`, `Destroy` or `Activate`. -/
theorem C5_status_expired_no_teardown (st : SessionState) (now : Int) (k : List Nat)
    (hk : st.enclave = some k) (hexp : isExpired st now = true) :
    StatusFull st now = (inactiveRep, st) := by
  unfold StatusFull
  rw [status_expired st now k hk hexp]

/-- Claim C5, witness: `Status` at time 11 on a session that expired at
time 10 reports inactive and changes nothing. -/
theorem C5_status_expired_no_teardown_witness :
    StatusFull (activateState (initState 10) [1] 100 0) 11 =
      (inactiveRep, activateState (initState 10) [1] 100 0) :=
  C5_status_expired_no_teardown (activateState (initState 10) [1] 100 0) 11 [1]
    rfl (by decide)

/-- Claim C6, counterexample.  `isExpired` is `time.Now().After(expiresAt)`,
a strict comparison: at the precise instant `now = expires_at` (here both
10) the session is still treated as valid — `Sign` succeeds rather than
failing with `SessionExpired`, and `Status` reports `active=true` — refuting
"expired exactly when now ≥ expires_at". -/
theorem C6_counterexample :
    (activateState (initState 10) [1] 100 0).expiresAt = 10 ∧
    (Sign (activateState (initState 10) [1] 100 0) 10 5 true).1 = Except.ok placeholderSig ∧
    (Status (activateState (initState 10) [1] 100 0) 10).active = true := by
  refine ⟨rfl, rfl, rfl⟩

/-- Claim C6, amended.  Every operation treats the session as expired
exactly when `now > expires_at` (strictly after): at the precise instant
`now = expires_at`, `Sign` never reports `SessionExpired` and `Status`
reports active whenever a session exists. -/
theorem C6_strict_expiry :
    ∀ (st : SessionState) (now v : Int) (ok : Bool),
      (isExpired st now = true ↔ st.expiresAt < now) ∧
      (Sign st st.expiresAt v ok).1 ≠ Except.error SignErr.sessionExpired ∧
      (Status st st.expiresAt).active = st.enclave.isSome := by
  intro st now v ok
  have hexp : isExpired st st.expiresAt = false := by
    simp [isExpired]
  refine ⟨by simp [isExpired], ?_, ?_⟩
  · rcases hk : st.enclave with _ | k
    · rw [sign_noSession st st.expiresAt v ok hk]
      intro hc
      exact SignErr.noConfusion (Except.error.inj hc)
    · by_cases hlt : limitOf st < st.valueUsed + v
      · rw [sign_vle st st.expiresAt v ok k hk hexp hlt]
        intro hc
        exact SignErr.noConfusion (Except.error.inj hc)
      · cases ok with
        | true =>
            rw [sign_ok st st.expiresAt v k hk hexp (not_lt.mp hlt)]
            intro hc
            exact Except.noConfusion hc
        | false =>
            rw [sign_openFail st st.expiresAt v k hk hexp (not_lt.mp hlt)]
            intro hc
            exact SignErr.noConfusion (Except.error.inj hc)
  · rcases hk : st.enclave with _ | k
    · rw [status_noSession st st.expiresAt hk]
      rfl
    · rw [(status_active st st.expiresAt k hk hexp).1]
      rfl

/-- Claim C7, counterexample.  Two distinct Core errors — `NoActiveSession`
(fresh manager) and `SessionExpired` (session expired at 10, called at 11) —
are both mapped by `SignOrder` to the same caller-visible gRPC category,
`FailedPrecondition`, so clients cannot branch on the category alone. -/
theorem C7_counterexample :
    (SignOrder (initState 10) 0 { order := some { makerAmount := "1" } } true).1 =
      Except.error (Code.failedPrecondition, "no active session") ∧
    (SignOrder (activateState (initState 10) [1] 100 0) 11
        { order := some { makerAmount := "1" } } true).1 =
      Except.error (Code.failedPrecondition, "session expired") ∧
    errToCode SignErr.noActiveSession = errToCode SignErr.sessionExpired := by
  refine ⟨rfl, rfl, rfl⟩

/-- Claim C7, amended.  The facade maps `ValueLimitExceeded` to
`ResourceExhausted` and `SigningFailure` to `Internal`, each distinct from
every other error's category, but maps `NoActiveSession` and
`SessionExpired` to the same category `FailedPrecondition`; the attached
message strings, not the categories, are pairwise distinct across all four
Core errors. -/
theorem C7_error_mapping :
    errToCode SignErr.noActiveSession = Code.failedPrecondition ∧
    errToCode SignErr.sessionExpired = Code.failedPrecondition ∧
    errToCode SignErr.valueLimitExceeded = Code.resourceExhausted ∧
    errToCode SignErr.signingFailure = Code.internalErr ∧
    (List.map errToCode
      [SignErr.noActiveSession, SignErr.valueLimitExceeded, SignErr.signingFailure]).Nodup ∧
    (List.map errToMsg
      [SignErr.noActiveSession, SignErr.sessionExpired,
        SignErr.valueLimitExceeded, SignErr.signingFailure]).Nodup := by
  refine ⟨rfl, rfl, rfl, rfl, by decide, by decide⟩

/-- Claim C8: from every prior state, `Activate` unconditionally installs
the new session — seals the key, sets `expires_at := now + ttl`, copies the
limit, zeroes `value_used`, sets the derived address — and its result does
not depend on the prior session (any two prior states with the same
configured TTL activate to the same state); with a non-negative configured
TTL, `Status` immediately afterwards reports `active=true` and
`value_used="0"`. -/
theorem C8_activate_resets (st st2 : SessionState) (key : List Nat) (limit now : Int)
    (httl : 0 ≤ st.ttl) (hsame : st2.ttl = st.ttl) :
    (activateState st key limit now).enclave = some key ∧
    (activateState st key limit now).expiresAt = now + st.ttl ∧
    (activateState st key limit now).maxValueLimit = some limit ∧
    (activateState st key limit now).valueUsed = 0 ∧
    (activateState st key limit now).address = zeroAddress ∧
    activateState st2 key limit now = activateState st key limit now ∧
    (Status (activateState st key limit now) now).active = true ∧
    (Status (activateState st key limit now) now).used = "0" := by
  have hexp : isExpired (activateState st key limit now) now = false := by
    simp [isExpired, activateState]
    omega
  have hst := status_active (activateState st key limit now) now key rfl hexp
  refine ⟨rfl, rfl, rfl, rfl, rfl, ?_, hst.1, ?_⟩
  · unfold activateState
    cases st
    cases st2
    simp only at hsame ⊢
    simp [hsame]
  · rw [hst.2.1]
    show bigIntStr 0 = "0"
    decide

/-- Claim C8, witness: activating on top of a live limit-100 session
(`Activate` at time 0, TTL 10) resets `value_used` to `"0"` and reports
active. -/
theorem C8_activate_resets_witness :
    (Status (activateState (activateState (initState 10) [2] 7 0) [1] 100 0) 0).active = true ∧
    (Status (activateState (activateState (initState 10) [2] 7 0) [1] 100 0) 0).used = "0" := by
  have h := C8_activate_resets (activateState (initState 10) [2] 7 0) (initState 10)
    [1] 100 0 (by decide) rfl
  exact ⟨h.2.2.2.2.2.2.1, h.2.2.2.2.2.2.2⟩

/-- Claim C9: `Destroy` is idempotent, unconditionally produces the
no-active-session state (no key, empty address, zeroed counters, nil
limit) from every prior state, and `Destroy` followed by `Sign` always
yields `NoActiveSession`. -/
theorem C9_destroy_idempotent :
    ∀ (st : SessionState) (now v : Int) (ok : Bool),
      Destroy (Destroy st) = Destroy st ∧
      (Destroy st).enclave = none ∧
      (Destroy st).address = "" ∧
      (Destroy st).valueUsed = 0 ∧
      (Destroy st).maxValueLimit = none ∧
      Sign (Destroy st) now v ok = (Except.error SignErr.noActiveSession, Destroy st) := by
  intro st now v ok
  exact ⟨rfl, rfl, rfl, rfl, rfl, sign_noSession (Destroy st) now v ok rfl⟩

/-- Claim C10: `Activate` never returns an error and performs no input
validation — for every `key_bytes` and every `max_value_limit`, including a
negative one, it installs a session; on a session activated with a negative
limit, every `Sign` of a non-negative value (while the session is
unexpired) fails with `ValueLimitExceeded`, leaving the state unchanged. -/
theorem C10_activate_no_validation (st : SessionState) (key : List Nat) (limit now : Int) :
    (Activate st key limit now).1 = none ∧
    (Activate st key limit now).2 = activateState st key limit now ∧
    (activateState st key limit now).enclave = some key ∧
    (limit < 0 → ∀ (v now2 : Int) (ok : Bool), 0 ≤ v →
        isExpired (activateState st key limit now) now2 = false →
        Sign (activateState st key limit now) now2 v ok =
          (Except.error SignErr.valueLimitExceeded, activateState st key limit now)) := by
  refine ⟨rfl, rfl, rfl, ?_⟩
  intro hneg v now2 ok hv hexp
  refine sign_vle (activateState st key limit now) now2 v ok key rfl hexp ?_
  show limitOf (activateState st key limit now) < (0 : Int) + v
  have : limitOf (activateState st key limit now) = limit := rfl
  omega

/-- Claim C10, witness: `Activate(key=[1], limit=-1)` errorlessly installs a
session on which `Sign(0)` at the activation instant fails with
`ValueLimitExceeded`. -/
theorem C10_activate_no_validation_witness :
    (Activate (initState 10) [1] (-1) 0).1 = none ∧
    Sign (activateState (initState 10) [1] (-1) 0) 0 0 true =
      (Except.error SignErr.valueLimitExceeded, activateState (initState 10) [1] (-1) 0) := by
  have h := C10_activate_no_validation (initState 10) [1] (-1) 0
  exact ⟨h.1, h.2.2.2 (by decide) 0 0 true (by decide) (by decide)⟩

end Caesar
